import Mathlib

/-!
Verification of the VPN-AP captive portal connectivity engine
(`scripts/captive-portal-server.py`) against its natural-language design
specification.

The Python program is shallowly embedded: external tools (nmcli, nordvpn,
iptables scripts, ping) are modelled as oracles supplying their textual
output and exit codes, and every mutating operation is translated into a
pure Lean function that returns both its result and the ordered trace of
externally visible actions (commands issued, firewall profile scripts run,
management-access assertions, state-file writes).  The on-disk JSON state
file is modelled as a record of optional keys.
-/

namespace VpnAp

/-! ### Substring matching (Python `needle in haystack`) -/

/-- Boolean test that `p` is a leading segment of `l` (on characters). -/
def listStartsWith : List Char → List Char → Bool
  | [], _ => true
  | _ :: _, [] => false
  | a :: as, b :: bs => a == b && listStartsWith as bs

/-- Boolean test that `sub` occurs contiguously inside `l`. -/
def charsHave : List Char → List Char → Bool
  | [], sub => sub.isEmpty
  | a :: as, sub => listStartsWith sub (a :: as) || charsHave as sub

/-- Python's `sub in s` on strings. -/
def strHas (s sub : String) : Bool :=
  charsHave s.data sub.data

/-- Python's `sub in s.lower()`: case-folded containment. -/
def strHasLower (s sub : String) : Bool :=
  charsHave (s.data.map Char.toLower) sub.data

/-- Split a character list at every occurrence of `sep` (Python
`str.split(sep)` on single-character separators). -/
def splitCharList (sep : Char) : List Char → List (List Char)
  | [] => [[]]
  | c :: cs =>
      let r := splitCharList sep cs
      if c == sep then [] :: r
      else
        match r with
        | [] => [[c]]
        | h :: t => (c :: h) :: t

/-- The characters after the first `':'`, or `none` when there is no colon. -/
def dropThroughColon : List Char → Option (List Char)
  | [] => none
  | c :: cs => if c == ':' then some cs else dropThroughColon cs

/-- ASCII whitespace, for Python `str.strip()`. -/
def isSpaceChar (c : Char) : Bool :=
  c == ' ' || c == '\t' || c == '\n' || c == '\r'

/-- Python `str.strip()` on a character list. -/
def trimChars (l : List Char) : List Char :=
  ((l.dropWhile isSpaceChar).reverse.dropWhile isSpaceChar).reverse

/-! ### Configuration constants (source lines 33–37) -/

def WIFI_MAX_RETRIES : Nat := 3
def VPN_MAX_RETRIES : Nat := 3

/-- `VPN_SERVERS = ["", "us", "uk", "de", "nl", "ch"]`; empty = auto. -/
def VPN_SERVERS : List String := ["", "us", "uk", "de", "nl", "ch"]

/-! ### Persistent state file (`save_state` / `load_state`) -/

/-- The on-disk JSON object: each key is present (`some`) or absent (`none`).
The file holds at most the keys `last_wifi_ssid`, `last_wifi_password`,
`last_vpn_server`. -/
structure StateFile where
  last_wifi_ssid : Option String
  last_wifi_password : Option String
  last_vpn_server : Option String
deriving DecidableEq, Repr

/-- The empty state file (no file / no keys). -/
def emptyFile : StateFile :=
  { last_wifi_ssid := none, last_wifi_password := none, last_vpn_server := none }

/-- `save_state(state)` opens the file with mode `'w'` and `json.dump`s the
passed dict, so the previous contents are discarded entirely. -/
def save_state (dict _old : StateFile) : StateFile := dict

/-- The dict passed to `save_state` by a verified WiFi connect
(source line 347): only the two WiFi keys. -/
def wifi_state_dict (ssid password : String) : StateFile :=
  { last_wifi_ssid := some ssid, last_wifi_password := some password,
    last_vpn_server := none }

/-- The dict passed to `save_state` by a verified VPN connect
(source line 396): only the VPN key. -/
def vpn_state_dict (server : String) : StateFile :=
  { last_wifi_ssid := none, last_wifi_password := none,
    last_vpn_server := some server }

/-! ### Firewall profiles and management access -/

/-- The closed set of firewall mode profiles. -/
inductive FwMode
  | captive
  | internet
  | vpn
deriving DecidableEq, Repr

/-- The five insert-if-absent management rules asserted by
`ensure_management_access` (source lines 146–164). -/
inductive MgmtRule
  | sshAllInterfaces
  | portalHttpOnAp
  | dhcpOnAp
  | dnsOnAp
  | loopback
deriving DecidableEq, Repr

/-- The rule list programmed by `ensure_management_access`, in order. -/
def ensure_management_access_rules : List MgmtRule :=
  [MgmtRule.sshAllInterfaces, MgmtRule.portalHttpOnAp, MgmtRule.dhcpOnAp,
   MgmtRule.dnsOnAp, MgmtRule.loopback]

/-! ### Externally visible actions -/

/-- One externally visible action of the engine, in the order the program
performs them. -/
inductive Event
  | disconnectWifi
  | deleteProfile (ssid : String)
  | rescan
  | radioOff
  | radioOn
  | wifiConnectCmd (ssid password : String) (attempt : Nat)
  | ipCheck (attempt : Nat)
  | saveStateEv (dict : StateFile)
  | removeDnsRedirectEv
  | setupDnsRedirectEv
  | runFwScript (mode : FwMode)
  | mgmtAccess
  | vpnConnectCmd (server : String) (serverIdx attempt : Nat)
  | vpnStatusQuery (serverIdx attempt : Nat)
  | vpnDisconnectCmd
deriving DecidableEq, Repr

/-- `setup_captive_mode_firewall` / `setup_internet_mode_firewall` /
`setup_vpn_mode_firewall` share one shape (source lines 466–510): look up the
per-mode script; if found, run it and then call `ensure_management_access`
(regardless of the script's exit code), returning whether the script exited 0;
if not found, log a warning and return failure without touching rules.
`found` is whether `find_script` located the script, `rc` its exit code. -/
def setup_mode_firewall (mode : FwMode) (found : Bool) (rc : Nat) :
    List Event × Bool :=
  if found then ([Event.runFwScript mode, Event.mgmtAccess], rc == 0)
  else ([], false)

def setup_captive_mode_firewall (found : Bool) (rc : Nat) : List Event × Bool :=
  setup_mode_firewall FwMode.captive found rc

def setup_internet_mode_firewall (found : Bool) (rc : Nat) : List Event × Bool :=
  setup_mode_firewall FwMode.internet found rc

def setup_vpn_mode_firewall (found : Bool) (rc : Nat) : List Event × Bool :=
  setup_mode_firewall FwMode.vpn found rc

/-! ### Status prober (`get_status`, source lines 189–240) -/

/-- Outputs and exit codes of the read-only probe commands issued by
`get_status`. -/
structure ProbeEnv where
  devShowOut : String
  ssidOut : String
  ipAddrOut : String
  vpnStatusOut : String
  ipifyOut : String
  ipifyCode : Nat
  pingCode : Nat

/-- The status record built by `get_status`. -/
structure Status where
  wifi_connected : Bool
  wifi_ssid : String
  wifi_ip : String
  vpn_connected : Bool
  vpn_ip : String
  vpn_server : String
  internet : Bool
  mode : String
deriving DecidableEq, Repr

/-- Python `line.split(':', 1)[-1]`: everything after the first colon
(the whole line when there is no colon). -/
def afterFirstColon (line : List Char) : List Char :=
  (dropThroughColon line).getD line

/-- The `vpn_server` field extraction: the first line of `nordvpn status`
output holding `Server:` or `City:`, split at the first colon and trimmed. -/
def vpn_server_of_status (out : String) : String :=
  match (splitCharList '\n' out.data).find?
      (fun l => charsHave l "Server:".data || charsHave l "City:".data) with
  | some l => String.mk (trimChars (afterFirstColon l))
  | none => ""

/-- `get_status`: probes WiFi state, VPN state and internet reachability and
derives the `mode` field by the if/elif chain at source lines 231–238. -/
def get_status (env : ProbeEnv) : Status :=
  let wifi := strHasLower env.devShowOut "connected"
  let vpn := strHas env.vpnStatusOut "Connected"
  let internet := env.pingCode == 0
  { wifi_connected := wifi
    wifi_ssid := if wifi then env.ssidOut else ""
    wifi_ip := if wifi then env.ipAddrOut else ""
    vpn_connected := vpn
    vpn_ip := if vpn then (if env.ipifyCode == 0 then env.ipifyOut else "") else ""
    vpn_server := if vpn then vpn_server_of_status env.vpnStatusOut else ""
    internet := internet
    mode :=
      if vpn then "vpn"
      else if wifi && internet then "internet"
      else if wifi then "captive_portal_needed"
      else "captive" }

/-- Modelled from the spec (§4.5): the mode precedence table.  VPN verified
connected takes precedence, then WiFi with internet, then WiFi alone, else
captive. -/
def mode_precedence_spec (vpnVerified wifi internet : Bool) : String :=
  if vpnVerified then "vpn"
  else if wifi && internet then "internet"
  else if wifi then "captive_portal_needed"
  else "captive"

/-! ### WiFi connector (`connect_wifi_with_retry`, source lines 298–368) -/

/-- Oracle for the external tools touched by the WiFi connector: the exit
code of the `nmcli dev wifi connect` command on each attempt, whether
`ip addr show wlan0` shows an `inet` line afterwards, and the firewall
script environment. -/
structure WifiEnv where
  connectCode : Nat → Nat
  hasIP : Nat → Bool
  fwFound : FwMode → Bool
  fwExit : FwMode → Nat

/-- `connect_wifi_nmcli` succeeds exactly when the command exits 0
(source lines 289–295). -/
def connect_wifi_nmcli (env : WifiEnv) (attempt : Nat) : Bool :=
  env.connectCode attempt == 0

/-- The per-attempt escalating remediation (source lines 308–332):
always disconnect first; on attempt 0 delete the stale saved profile for
the SSID; on attempt 1 force a rescan; on every attempt ≥ 2 power-cycle the
radio and rescan. -/
def wifi_attempt_remediation (ssid : String) (attempt : Nat) : List Event :=
  [Event.disconnectWifi]
  ++ (if attempt == 0 then [Event.deleteProfile ssid] else [])
  ++ (if attempt == 1 then [Event.rescan]
      else if 2 ≤ attempt then [Event.radioOff, Event.radioOn, Event.rescan]
      else [])

/-- The tail executed when every attempt failed (source lines 362–368):
re-enable the DNS redirect, apply the captive firewall profile, reassert
management access. -/
def captive_tail (env : WifiEnv) : List Event :=
  [Event.setupDnsRedirectEv]
  ++ (setup_captive_mode_firewall (env.fwFound FwMode.captive)
        (env.fwExit FwMode.captive)).1
  ++ [Event.mgmtAccess]

/-- Result of a connector call: action trace, success flag, user-facing
message, and the resulting on-disk state file. -/
structure WifiResult where
  trace : List Event
  ok : Bool
  msg : String
  file : StateFile
deriving DecidableEq, Repr

/-- The retry loop of `connect_wifi_with_retry`: `fuel` is the number of
attempts left, `attempt` the index of the next attempt.  On command success
an IP check follows; only a bound IP counts as success, persisting the WiFi
keys and applying the internet firewall profile.  Exhaustion falls back to
`captive_tail`. -/
def connect_wifi_loop (env : WifiEnv) (ssid password : String)
    (file : StateFile) : Nat → Nat → WifiResult
  | 0, _ =>
      { trace := captive_tail env
        ok := false
        msg := "Connection failed after multiple attempts"
        file := file }
  | fuel + 1, attempt =>
      let pre := wifi_attempt_remediation ssid attempt
        ++ [Event.wifiConnectCmd ssid password attempt]
      if connect_wifi_nmcli env attempt then
        if env.hasIP attempt then
          let f := save_state (wifi_state_dict ssid password) file
          { trace := pre ++ [Event.ipCheck attempt,
              Event.saveStateEv (wifi_state_dict ssid password),
              Event.removeDnsRedirectEv]
              ++ (setup_internet_mode_firewall (env.fwFound FwMode.internet)
                    (env.fwExit FwMode.internet)).1
              ++ [Event.mgmtAccess]
            ok := true
            msg := "Connected successfully"
            file := f }
        else
          let r := connect_wifi_loop env ssid password file fuel (attempt + 1)
          { r with trace := pre ++ [Event.ipCheck attempt] ++ r.trace }
      else
        let r := connect_wifi_loop env ssid password file fuel (attempt + 1)
        { r with trace := pre ++ r.trace }

/-- `connect_wifi_with_retry(ssid, password, max_retries)`. -/
def connect_wifi_with_retry (env : WifiEnv) (ssid password : String)
    (maxRetries : Nat) (file : StateFile) : WifiResult :=
  connect_wifi_loop env ssid password file maxRetries 0

/-! ### VPN connector (`connect_vpn_with_retry`, source lines 371–415) -/

/-- Oracle for the VPN connector, indexed by (server index, attempt):
exit code and stdout of `nordvpn connect`, the follow-up `nordvpn status`
output, and the firewall script environment. -/
structure VpnEnv where
  connectCode : Nat → Nat → Nat
  connectOutput : Nat → Nat → String
  statusOutput : Nat → Nat → String
  fwFound : FwMode → Bool
  fwExit : FwMode → Nat

/-- Candidate success of one `nordvpn connect` invocation (source line 387):
exit code 0, or a recognized already-connected message in the output. -/
def vpn_candidate_success (output : String) (code : Nat) : Bool :=
  code == 0 || strHas output "You are connected" || strHas output "Already connected"

/-- Whether attempt `a` against server index `s` yields a *verified*
connection: candidate success and the independent `nordvpn status` query
reporting `Connected`. -/
def vpn_verified (env : VpnEnv) (s a : Nat) : Bool :=
  vpn_candidate_success (env.connectOutput s a) (env.connectCode s a)
    && strHas (env.statusOutput s a) "Connected"

/-- `server if server else "auto"` (source line 377). -/
def server_display_name (server : String) : String :=
  if server == "" then "auto" else server

/-- The inner attempt loop for one endpoint (source lines 376–408).
Returns the trace and, on verified success, the message and new state file.
On verified success the endpoint is persisted and the VPN (kill-switch)
firewall profile applied; if that application fails, the call still reports
success, with the distinct degraded message. -/
def vpn_try_server (env : VpnEnv) (server : String) (sIdx : Nat)
    (file : StateFile) : Nat → Nat → List Event × Option (String × StateFile)
  | 0, _ => ([], none)
  | fuel + 1, a =>
      let cand := vpn_candidate_success (env.connectOutput sIdx a)
        (env.connectCode sIdx a)
      if cand then
        if strHas (env.statusOutput sIdx a) "Connected" then
          let f := save_state (vpn_state_dict server) file
          let fw := setup_vpn_mode_firewall (env.fwFound FwMode.vpn)
            (env.fwExit FwMode.vpn)
          if fw.2 then
            ([Event.vpnConnectCmd server sIdx a, Event.vpnStatusQuery sIdx a,
                Event.saveStateEv (vpn_state_dict server)]
              ++ fw.1 ++ [Event.mgmtAccess],
             some ("Connected to VPN (" ++ server_display_name server ++ ")", f))
          else
            ([Event.vpnConnectCmd server sIdx a, Event.vpnStatusQuery sIdx a,
                Event.saveStateEv (vpn_state_dict server)]
              ++ fw.1,
             some ("Connected (kill switch failed)", f))
        else
          let r := vpn_try_server env server sIdx file fuel (a + 1)
          ([Event.vpnConnectCmd server sIdx a, Event.vpnStatusQuery sIdx a]
             ++ r.1, r.2)
      else
        let r := vpn_try_server env server sIdx file fuel (a + 1)
        (Event.vpnConnectCmd server sIdx a :: r.1, r.2)

/-- The outer endpoint loop: each endpoint receives its full retry budget
before the next endpoint is tried. -/
def vpn_try_servers (env : VpnEnv) (maxRetries : Nat) (file : StateFile) :
    List String → Nat → List Event × Option (String × StateFile)
  | [], _ => ([], none)
  | server :: rest, sIdx =>
      let r := vpn_try_server env server sIdx file maxRetries 0
      match r.2 with
      | some res => (r.1, some res)
      | none =>
          let r' := vpn_try_servers env maxRetries file rest (sIdx + 1)
          (r.1 ++ r'.1, r'.2)

/-- Result of `connect_vpn_with_retry`. -/
structure VpnResult where
  trace : List Event
  ok : Bool
  msg : String
  file : StateFile
deriving DecidableEq, Repr

/-- `connect_vpn_with_retry(max_retries)`: iterate `VPN_SERVERS` in order. -/
def connect_vpn_with_retry (env : VpnEnv) (maxRetries : Nat)
    (file : StateFile) : VpnResult :=
  let r := vpn_try_servers env maxRetries file VPN_SERVERS 0
  match r.2 with
  | some (msg, f) => { trace := r.1, ok := true, msg := msg, file := f }
  | none =>
      { trace := r.1, ok := false,
        msg := "VPN connection failed after trying multiple servers",
        file := file }

/-- `disconnect_vpn` (source lines 418–427): issue `nordvpn disconnect`,
then unconditionally apply the internet firewall profile and reassert
management access; the returned flag only reflects the disconnect command's
exit code. -/
def disconnect_vpn (code : Nat) (output : String) (found : Bool) (rc : Nat) :
    List Event × Bool × String :=
  (Event.vpnDisconnectCmd
      :: (setup_internet_mode_firewall found rc).1 ++ [Event.mgmtAccess],
   code == 0, output)

/-! ### Health monitor (`health_check_thread`, source lines 903–928) -/

/-- Python truthiness of `state.get(key)`: both a missing key and an empty
string are falsy. -/
def truthy : Option String → Bool
  | none => false
  | some s => !(s == "")

/-- One observable step of a health-monitor cycle. -/
inductive HealthAction
  | mgmt
  | probe
  | wifiConnect (ssid password : String) (budget : Nat)
  | vpnSingleConnect (server : String)
  | vpnFirewall
deriving DecidableEq, Repr

/-- `reconnect_last_wifi` (source lines 513–523): when a truthy persisted
SSID exists, invoke `connect_wifi_with_retry` with `max_retries=2`. -/
def reconnect_last_wifi_actions (file : StateFile) : List HealthAction :=
  if truthy file.last_wifi_ssid then
    [HealthAction.wifiConnect (file.last_wifi_ssid.getD "")
      (file.last_wifi_password.getD "") 2]
  else []

/-- `reconnect_last_vpn` (source lines 526–540): when a truthy persisted
server exists, issue a single `nordvpn connect` command; on exit code 0
apply the VPN firewall profile and reassert management access.  No retry
budget and no status-query verification. -/
def reconnect_last_vpn_actions (file : StateFile) (exitCode : Nat) :
    List HealthAction :=
  if truthy file.last_vpn_server then
    HealthAction.vpnSingleConnect (file.last_vpn_server.getD "")
      :: (if exitCode == 0 then [HealthAction.vpnFirewall, HealthAction.mgmt]
          else [])
  else []

/-- One cycle of `health_check_thread` (source lines 907–925): reassert
management access unconditionally, probe status, then run the WiFi and VPN
recovery branches guarded by the probed status and the persisted state. -/
def health_cycle (penv : ProbeEnv) (file : StateFile) (vpnExit : Nat) :
    List HealthAction :=
  let status := get_status penv
  [HealthAction.mgmt, HealthAction.probe]
  ++ (if !status.wifi_connected && truthy file.last_wifi_ssid
      then reconnect_last_wifi_actions file else [])
  ++ (if status.wifi_connected && status.internet && !status.vpn_connected
        && truthy file.last_vpn_server
      then reconnect_last_vpn_actions file vpnExit else [])

/-! ### HTTP mutation handler (`CaptivePortalHandler.handle_connect`,
source lines 750–778, dispatched by `ThreadedTCPServer` at lines 892–894,
which runs every request handler in its own daemon thread) -/

/-- Responses a mutation request can produce.  `busy` is the spec's
rejected-while-locked response; it is part of the response vocabulary so
that its absence from the code's behavior can be stated. -/
inductive MutationResponse
  | connected (msg : String)
  | failed (msg : String)
  | busy
deriving DecidableEq, Repr

/-- `handle_connect(ssid, password)`: unconditionally runs
`connect_wifi_with_retry` — the handler consults no lock and has no busy
path. -/
def handle_connect (env : WifiEnv) (ssid password : String)
    (file : StateFile) : MutationResponse × WifiResult :=
  let r := connect_wifi_with_retry env ssid password WIFI_MAX_RETRIES file
  (if r.ok then MutationResponse.connected r.msg
   else MutationResponse.failed r.msg, r)

/-! ### Event predicates -/

def isWifiCmd : Event → Bool
  | Event.wifiConnectCmd _ _ _ => true
  | _ => false

def isDeleteProfile : Event → Bool
  | Event.deleteProfile _ => true
  | _ => false

def isRescan : Event → Bool
  | Event.rescan => true
  | _ => false

def isRadioOff : Event → Bool
  | Event.radioOff => true
  | _ => false

def isVpnCmd : Event → Bool
  | Event.vpnConnectCmd _ _ _ => true
  | _ => false

def isVpnCmdAtServer (s : Nat) : Event → Bool
  | Event.vpnConnectCmd _ s' _ => s' == s
  | _ => false

/-- The endpoint index an event belongs to, for VPN connect/status events. -/
def eventServer : Event → Option Nat
  | Event.vpnConnectCmd _ s _ => some s
  | Event.vpnStatusQuery s _ => some s
  | _ => none

def isVpnHealthConnect : HealthAction → Bool
  | HealthAction.vpnSingleConnect _ => true
  | _ => false

/-! ## Claim C1: mode derivation is the pure precedence function -/

/-- C1: for every combination of the probed booleans, the `mode` field
computed by `get_status` equals the spec's precedence function (VPN verified
connected → `vpn`; else WiFi connected and internet reachable → `internet`;
else WiFi connected → `captive_portal_needed`; else `captive`), applied to
the status record's own three booleans — so `mode` depends on no other
state. -/
theorem get_status_mode_is_precedence (env : ProbeEnv) :
    (get_status env).mode
      = mode_precedence_spec (get_status env).vpn_connected
          (get_status env).wifi_connected (get_status env).internet := rfl

/-! ## Claim C4: management access is asserted after every firewall
profile application -/

/-- A sequence of firewall profile applications: for each, the mode, whether
the per-mode script was found, and its exit code. -/
def apply_firewall_seq : List (FwMode × Bool × Nat) → List Event
  | [] => []
  | (m, found, rc) :: rest =>
      (setup_mode_firewall m found rc).1 ++ apply_firewall_seq rest

/-- C4: in every sequence of firewall mode applications, every run of a
profile script is immediately followed by the management-access assertion,
including when the script exits with failure (the trace does not depend on
the exit code). -/
theorem firewall_mgmt_asserted_after_every_apply
    (l : List (FwMode × Bool × Nat)) (i : Nat) (m : FwMode)
    (h : (apply_firewall_seq l)[i]? = some (Event.runFwScript m)) :
    (apply_firewall_seq l)[i + 1]? = some Event.mgmtAccess := by
  induction l generalizing i with
  | nil => simp [apply_firewall_seq] at h
  | cons hd tl ih =>
      obtain ⟨m₀, found, rc⟩ := hd
      cases found with
      | false =>
          simp only [apply_firewall_seq, setup_mode_firewall, if_neg,
            Bool.false_eq_true, not_false_iff, List.nil_append] at h ⊢
          exact ih i h
      | true =>
          simp only [apply_firewall_seq, setup_mode_firewall, if_pos,
            List.cons_append, List.nil_append] at h ⊢
          match i with
          | 0 => simp
          | 1 => simp at h
          | i + 2 =>
              simp only [List.getElem?_cons_succ] at h ⊢
              exact ih i h

/-- Witness for C4: a captive-profile application whose script exits with
failure (code 1) is still followed by the management-access assertion. -/
theorem firewall_mgmt_asserted_after_every_apply_witness :
    (apply_firewall_seq [(FwMode.captive, true, 1)])[0 + 1]?
      = some Event.mgmtAccess :=
  firewall_mgmt_asserted_after_every_apply [(FwMode.captive, true, 1)] 0
    FwMode.captive (by decide)

/-! ## Claim C9: VPN disconnect is unconditional best-effort -/

/-- C9: whatever the exit status of the `nordvpn disconnect` command, the
disconnect operation afterwards applies the Internet firewall profile and
reasserts management access; its action trace does not depend on the exit
code at all, and only the returned flag reflects it. -/
theorem disconnect_vpn_unconditional (code rc : Nat) (output : String)
    (found : Bool) :
    (disconnect_vpn code output found rc).1
        = Event.vpnDisconnectCmd
            :: (setup_internet_mode_firewall found rc).1 ++ [Event.mgmtAccess]
    ∧ (disconnect_vpn code output found rc).1
        = (disconnect_vpn 0 output found rc).1
    ∧ (found = true →
        Event.runFwScript FwMode.internet ∈ (disconnect_vpn code output found rc).1)
    ∧ Event.mgmtAccess ∈ (disconnect_vpn code output found rc).1
    ∧ (disconnect_vpn code output found rc).2.1 = (code == 0) := by
  refine ⟨rfl, rfl, ?_, ?_, rfl⟩
  · intro hf
    simp [disconnect_vpn, setup_internet_mode_firewall, setup_mode_firewall, hf]
  · cases found <;>
      simp [disconnect_vpn, setup_internet_mode_firewall, setup_mode_firewall]

/-- Witness for C9: a failed disconnect (exit code 1) still applies the
Internet firewall profile. -/
theorem disconnect_vpn_unconditional_witness :
    Event.runFwScript FwMode.internet ∈ (disconnect_vpn 1 "error" true 0).1 :=
  (disconnect_vpn_unconditional 1 0 "error" true).2.2.1 rfl

/-! ## Claim C2: WiFi retry exhaustion -/

theorem countP_captive_tail_zero (env : WifiEnv) (p : Event → Bool)
    (h1 : p Event.setupDnsRedirectEv = false)
    (h2 : p (Event.runFwScript FwMode.captive) = false)
    (h3 : p Event.mgmtAccess = false) :
    List.countP p (captive_tail env) = 0 := by
  unfold captive_tail setup_captive_mode_firewall setup_mode_firewall
  cases env.fwFound FwMode.captive <;>
    simp [List.countP_cons, List.countP_append, h1, h2, h3]

theorem exists_append_cons {α : Type} (a : α) (l t : List α)
    (h : ∃ p, l = p ++ t) : ∃ p, a :: l = p ++ t := by
  obtain ⟨p, hp⟩ := h
  exact ⟨a :: p, by simp [hp]⟩

/-- Under an oracle whose IP verification always fails, the WiFi retry loop
fails with the fixed message, leaves the state file untouched, and ends in
the captive tail. -/
theorem connect_wifi_loop_fail (env : WifiEnv) (ssid password : String)
    (file : StateFile) (hIP : ∀ a, env.hasIP a = false) :
    ∀ fuel a,
      (connect_wifi_loop env ssid password file fuel a).ok = false
      ∧ (connect_wifi_loop env ssid password file fuel a).msg
          = "Connection failed after multiple attempts"
      ∧ (connect_wifi_loop env ssid password file fuel a).file = file
      ∧ ∃ pre, (connect_wifi_loop env ssid password file fuel a).trace
          = pre ++ captive_tail env := by
  intro fuel
  induction fuel with
  | zero =>
      intro a
      refine ⟨rfl, rfl, rfl, ⟨[], rfl⟩⟩
  | succ n ih =>
      intro a
      obtain ⟨hok, hmsg, hfile, pre, hpre⟩ := ih (a + 1)
      cases hc : connect_wifi_nmcli env a <;>
        simp only [connect_wifi_loop, hc, hIP a, Bool.false_eq_true, if_false,
          if_true, List.append_assoc] <;>
        refine ⟨hok, hmsg, hfile, ?_⟩
      · exact ⟨wifi_attempt_remediation ssid a
            ++ [Event.wifiConnectCmd ssid password a] ++ pre,
          by simp [hpre]⟩
      · exact ⟨wifi_attempt_remediation ssid a
            ++ [Event.wifiConnectCmd ssid password a] ++ [Event.ipCheck a] ++ pre,
          by simp [hpre]⟩

/-- Under an always-failing IP verification, the loop issues exactly one
connect command per unit of fuel. -/
theorem connect_wifi_loop_fail_countCmd (env : WifiEnv)
    (ssid password : String) (file : StateFile)
    (hIP : ∀ a, env.hasIP a = false) :
    ∀ fuel a, List.countP isWifiCmd
      (connect_wifi_loop env ssid password file fuel a).trace = fuel := by
  intro fuel
  induction fuel with
  | zero =>
      intro a
      exact countP_captive_tail_zero env isWifiCmd rfl rfl rfl
  | succ n ih =>
      intro a
      have hrem : List.countP isWifiCmd (wifi_attempt_remediation ssid a) = 0 := by
        unfold wifi_attempt_remediation
        split_ifs <;> simp [isWifiCmd]
      cases hc : connect_wifi_nmcli env a <;>
        simp [connect_wifi_loop, hc, hIP a, List.countP_append,
          List.countP_cons, isWifiCmd, hrem, ih (a + 1)]

/-- C2: with an oracle whose post-connect IP verification always fails, the
WiFi connect operation makes exactly `maxAttempts` attempts for any budget
(in particular `WIFI_MAX_RETRIES = 3` by default), deletes the stale saved
profile on attempt 0 only, rescans on attempt 1, power-cycles the radio and
rescans on attempt 2 and beyond, then returns failure with the state file
untouched, having ended with the captive-portal fallback (DNS redirect,
captive firewall profile, management access). -/
theorem connect_wifi_retry_exhaustion (env : WifiEnv) (ssid password : String)
    (file : StateFile) (r : WifiResult)
    (hIP : ∀ a, env.hasIP a = false)
    (hr : r = connect_wifi_with_retry env ssid password WIFI_MAX_RETRIES file) :
    r.ok = false
    ∧ r.msg = "Connection failed after multiple attempts"
    ∧ r.file = file
    ∧ List.countP isWifiCmd r.trace = WIFI_MAX_RETRIES
    ∧ (∀ n, List.countP isWifiCmd
        (connect_wifi_with_retry env ssid password n file).trace = n)
    ∧ List.countP isDeleteProfile r.trace = 1
    ∧ List.countP isRescan r.trace = 2
    ∧ List.countP isRadioOff r.trace = 1
    ∧ wifi_attempt_remediation ssid 0
        = [Event.disconnectWifi, Event.deleteProfile ssid]
    ∧ wifi_attempt_remediation ssid 1 = [Event.disconnectWifi, Event.rescan]
    ∧ (∀ a, 2 ≤ a → wifi_attempt_remediation ssid a
        = [Event.disconnectWifi, Event.radioOff, Event.radioOn, Event.rescan])
    ∧ ∃ pre, r.trace = pre ++ captive_tail env := by
  subst hr
  obtain ⟨hok, hmsg, hfile, hsuf⟩ :=
    connect_wifi_loop_fail env ssid password file hIP WIFI_MAX_RETRIES 0
  refine ⟨hok, hmsg, hfile,
    connect_wifi_loop_fail_countCmd env ssid password file hIP WIFI_MAX_RETRIES 0,
    fun n => connect_wifi_loop_fail_countCmd env ssid password file hIP n 0,
    ?_, ?_, ?_, ?_, ?_, ?_, hsuf⟩
  · have hct := countP_captive_tail_zero env isDeleteProfile rfl rfl rfl
    cases hc0 : connect_wifi_nmcli env 0 <;>
      cases hc1 : connect_wifi_nmcli env 1 <;>
      cases hc2 : connect_wifi_nmcli env 2 <;>
      simp [connect_wifi_with_retry, WIFI_MAX_RETRIES, connect_wifi_loop,
        hc0, hc1, hc2, hIP 0, hIP 1, hIP 2, wifi_attempt_remediation,
        List.countP_append, List.countP_cons, isDeleteProfile, hct]
  · have hct := countP_captive_tail_zero env isRescan rfl rfl rfl
    cases hc0 : connect_wifi_nmcli env 0 <;>
      cases hc1 : connect_wifi_nmcli env 1 <;>
      cases hc2 : connect_wifi_nmcli env 2 <;>
      simp [connect_wifi_with_retry, WIFI_MAX_RETRIES, connect_wifi_loop,
        hc0, hc1, hc2, hIP 0, hIP 1, hIP 2, wifi_attempt_remediation,
        List.countP_append, List.countP_cons, isRescan, hct]
  · have hct := countP_captive_tail_zero env isRadioOff rfl rfl rfl
    cases hc0 : connect_wifi_nmcli env 0 <;>
      cases hc1 : connect_wifi_nmcli env 1 <;>
      cases hc2 : connect_wifi_nmcli env 2 <;>
      simp [connect_wifi_with_retry, WIFI_MAX_RETRIES, connect_wifi_loop,
        hc0, hc1, hc2, hIP 0, hIP 1, hIP 2, wifi_attempt_remediation,
        List.countP_append, List.countP_cons, isRadioOff, hct]
  · rfl
  · rfl
  · intro a ha
    unfold wifi_attempt_remediation
    have h0 : (a == 0) = false := by
      simp [Nat.ne_of_gt (Nat.lt_of_lt_of_le Nat.zero_lt_two ha)]
    have h1 : (a == 1) = false := by
      have : a ≠ 1 := by omega
      simp [this]
    simp [h0, h1, ha]

/-- A WiFi oracle whose connect command succeeds but that never reports a
bound IP, with all firewall scripts present and succeeding. -/
def wifiEnvNoIP : WifiEnv :=
  { connectCode := fun _ => 0
    hasIP := fun _ => false
    fwFound := fun _ => true
    fwExit := fun _ => 0 }

/-- Witness for C2 at a concrete always-unverified oracle. -/
theorem connect_wifi_retry_exhaustion_witness :
    (connect_wifi_with_retry wifiEnvNoIP "hotel" "pw" WIFI_MAX_RETRIES
        emptyFile).ok = false
    ∧ List.countP isWifiCmd
        (connect_wifi_with_retry wifiEnvNoIP "hotel" "pw" WIFI_MAX_RETRIES
          emptyFile).trace = WIFI_MAX_RETRIES :=
  ⟨(connect_wifi_retry_exhaustion wifiEnvNoIP "hotel" "pw" emptyFile _
      (fun _ => rfl) rfl).1,
   (connect_wifi_retry_exhaustion wifiEnvNoIP "hotel" "pw" emptyFile _
      (fun _ => rfl) rfl).2.2.2.1⟩

/-! ## VPN connector lemmas -/

theorem countP_setup_fw_zero (m : FwMode) (found : Bool) (rc : Nat)
    (p : Event → Bool) (h1 : p (Event.runFwScript m) = false)
    (h2 : p Event.mgmtAccess = false) :
    List.countP p (setup_mode_firewall m found rc).1 = 0 := by
  cases found <;> simp [setup_mode_firewall, List.countP_cons, h1, h2]

/-- A firewall-success-dependent success message: the full-protection
message when the kill-switch profile applied, the degraded one otherwise. -/
def vpn_success_msg (env : VpnEnv) (server : String) : String :=
  if (setup_vpn_mode_firewall (env.fwFound FwMode.vpn) (env.fwExit FwMode.vpn)).2
  then "Connected to VPN (" ++ server_display_name server ++ ")"
  else "Connected (kill switch failed)"

/-- When every attempt against endpoint `sIdx` fails verification, the inner
loop returns no success, issues exactly one connect command per unit of
fuel, and every event it emits belongs to endpoint `sIdx`. -/
theorem vpn_try_server_all_fail (env : VpnEnv) (server : String) (sIdx : Nat)
    (file : StateFile) (h : ∀ a, vpn_verified env sIdx a = false) :
    ∀ fuel a,
      (vpn_try_server env server sIdx file fuel a).2 = none
      ∧ List.countP isVpnCmd (vpn_try_server env server sIdx file fuel a).1 = fuel
      ∧ ∀ e ∈ (vpn_try_server env server sIdx file fuel a).1,
          eventServer e = some sIdx := by
  intro fuel
  induction fuel with
  | zero =>
      intro a
      exact ⟨rfl, rfl, by simp [vpn_try_server]⟩
  | succ n ih =>
      intro a
      obtain ⟨h2, hcnt, hmem⟩ := ih (a + 1)
      cases hc : vpn_candidate_success (env.connectOutput sIdx a)
          (env.connectCode sIdx a) with
      | false =>
          refine ⟨?_, ?_, ?_⟩
          · simp [vpn_try_server, hc, h2]
          · simp [vpn_try_server, hc, List.countP_cons, isVpnCmd, hcnt]
          · intro e he
            simp only [vpn_try_server, hc, Bool.false_eq_true, if_false,
              List.mem_cons] at he
            rcases he with he | he
            · subst he; rfl
            · exact hmem e he
      | true =>
          have hst : strHas (env.statusOutput sIdx a) "Connected" = false := by
            have hv := h a
            simpa [vpn_verified, hc] using hv
          refine ⟨?_, ?_, ?_⟩
          · simp [vpn_try_server, hc, hst, h2]
          · simp [vpn_try_server, hc, hst, List.countP_cons, List.countP_append,
              isVpnCmd, hcnt]
          · intro e he
            simp only [vpn_try_server, hc, hst, Bool.false_eq_true, if_true,
              if_false, List.cons_append, List.nil_append, List.mem_cons] at he
            rcases he with he | he | he
            · subst he; rfl
            · subst he; rfl
            · exact hmem e he

/-- Outer-loop step when the head endpoint fails entirely. -/
theorem vpn_try_servers_cons_none (env : VpnEnv) (maxR : Nat)
    (file : StateFile) (server : String) (rest : List String) (sIdx : Nat)
    (h : (vpn_try_server env server sIdx file maxR 0).2 = none) :
    vpn_try_servers env maxR file (server :: rest) sIdx
      = ((vpn_try_server env server sIdx file maxR 0).1
            ++ (vpn_try_servers env maxR file rest (sIdx + 1)).1,
         (vpn_try_servers env maxR file rest (sIdx + 1)).2) := by
  simp only [vpn_try_servers]
  rw [h]

/-- Outer-loop step when the head endpoint produces a verified success. -/
theorem vpn_try_servers_cons_some (env : VpnEnv) (maxR : Nat)
    (file : StateFile) (server : String) (rest : List String) (sIdx : Nat)
    (res : String × StateFile)
    (h : (vpn_try_server env server sIdx file maxR 0).2 = some res) :
    vpn_try_servers env maxR file (server :: rest) sIdx
      = ((vpn_try_server env server sIdx file maxR 0).1, some res) := by
  simp only [vpn_try_servers]
  rw [h]

/-- A first-attempt verified success returns immediately with the persisted
endpoint and a trace containing exactly one connect command, for this
endpoint. -/
theorem vpn_try_server_success_step (env : VpnEnv) (server : String)
    (sIdx : Nat) (file : StateFile) (fuel : Nat)
    (hcand : vpn_candidate_success (env.connectOutput sIdx 0)
      (env.connectCode sIdx 0) = true)
    (hstat : strHas (env.statusOutput sIdx 0) "Connected" = true) :
    ∃ t, vpn_try_server env server sIdx file (fuel + 1) 0
        = (t, some (vpn_success_msg env server, vpn_state_dict server))
      ∧ List.countP isVpnCmd t = 1
      ∧ List.countP (isVpnCmdAtServer sIdx) t = 1 := by
  have hfw := countP_setup_fw_zero FwMode.vpn (env.fwFound FwMode.vpn)
    (env.fwExit FwMode.vpn) isVpnCmd rfl rfl
  have hfw' := countP_setup_fw_zero FwMode.vpn (env.fwFound FwMode.vpn)
    (env.fwExit FwMode.vpn) (isVpnCmdAtServer sIdx) rfl rfl
  cases hks : (setup_vpn_mode_firewall (env.fwFound FwMode.vpn)
      (env.fwExit FwMode.vpn)).2 with
  | false =>
      refine ⟨[Event.vpnConnectCmd server sIdx 0, Event.vpnStatusQuery sIdx 0,
          Event.saveStateEv (vpn_state_dict server)]
          ++ (setup_vpn_mode_firewall (env.fwFound FwMode.vpn)
              (env.fwExit FwMode.vpn)).1, ?_, ?_, ?_⟩
      · simp [vpn_try_server, hcand, hstat, hks, vpn_success_msg, save_state]
      · simp [List.countP_cons, List.countP_append, isVpnCmd,
          setup_vpn_mode_firewall, hfw]
      · simp [List.countP_cons, List.countP_append, isVpnCmdAtServer,
          setup_vpn_mode_firewall, hfw']
  | true =>
      refine ⟨[Event.vpnConnectCmd server sIdx 0, Event.vpnStatusQuery sIdx 0,
          Event.saveStateEv (vpn_state_dict server)]
          ++ (setup_vpn_mode_firewall (env.fwFound FwMode.vpn)
              (env.fwExit FwMode.vpn)).1 ++ [Event.mgmtAccess], ?_, ?_, ?_⟩
      · simp [vpn_try_server, hcand, hstat, hks, vpn_success_msg, save_state]
      · simp [List.countP_cons, List.countP_append, isVpnCmd,
          setup_vpn_mode_firewall, hfw]
      · simp [List.countP_cons, List.countP_append, isVpnCmdAtServer,
          setup_vpn_mode_firewall, hfw']

/-- When no endpoint ever verifies, the outer loop yields no success. -/
theorem vpn_try_servers_all_fail (env : VpnEnv) (maxR : Nat)
    (file : StateFile) (h : ∀ s a, vpn_verified env s a = false) :
    ∀ servers sIdx, (vpn_try_servers env maxR file servers sIdx).2 = none := by
  intro servers
  induction servers with
  | nil => intro sIdx; rfl
  | cons server rest ih =>
      intro sIdx
      have hn := (vpn_try_server_all_fail env server sIdx file
        (fun a => h sIdx a) maxR 0).1
      rw [vpn_try_servers_cons_none env maxR file server rest sIdx hn]
      exact ih (sIdx + 1)

/-- Any success of the inner loop persists exactly the endpoint dict. -/
theorem vpn_try_server_some_file (env : VpnEnv) (server : String)
    (sIdx : Nat) (file : StateFile) :
    ∀ fuel a msg f,
      (vpn_try_server env server sIdx file fuel a).2 = some (msg, f) →
      f = vpn_state_dict server := by
  intro fuel
  induction fuel with
  | zero => intro a msg f h; simp [vpn_try_server] at h
  | succ n ih =>
      intro a msg f h
      cases hc : vpn_candidate_success (env.connectOutput sIdx a)
          (env.connectCode sIdx a) with
      | false =>
          simp only [vpn_try_server, hc, Bool.false_eq_true, if_false] at h
          exact ih (a + 1) msg f h
      | true =>
          cases hst : strHas (env.statusOutput sIdx a) "Connected" with
          | false =>
              simp only [vpn_try_server, hc, hst, Bool.false_eq_true, if_true,
                if_false] at h
              exact ih (a + 1) msg f h
          | true =>
              cases hks : (setup_vpn_mode_firewall (env.fwFound FwMode.vpn)
                  (env.fwExit FwMode.vpn)).2 <;>
                · simp only [vpn_try_server, hc, hst, hks, Bool.false_eq_true,
                    if_true, if_false, save_state, Option.some.injEq,
                    Prod.mk.injEq] at h
                  exact h.2.symm

/-- Any success of the outer loop persists some endpoint dict. -/
theorem vpn_try_servers_some_file (env : VpnEnv) (maxR : Nat)
    (file : StateFile) :
    ∀ servers sIdx msg f,
      (vpn_try_servers env maxR file servers sIdx).2 = some (msg, f) →
      ∃ server, f = vpn_state_dict server := by
  intro servers
  induction servers with
  | nil => intro sIdx msg f h; simp [vpn_try_servers] at h
  | cons server rest ih =>
      intro sIdx msg f h
      cases hr : (vpn_try_server env server sIdx file maxR 0).2 with
      | none =>
          rw [vpn_try_servers_cons_none env maxR file server rest sIdx hr] at h
          exact ih (sIdx + 1) msg f h
      | some res =>
          rw [vpn_try_servers_cons_some env maxR file server rest sIdx res hr] at h
          obtain ⟨m2, f2⟩ := res
          simp only [Option.some.injEq, Prod.mk.injEq] at h
          exact ⟨server, h.2 ▸ vpn_try_server_some_file env server sIdx file
            maxR 0 m2 f2 hr⟩

/-- Every status-query event emitted from attempt index `a0` on carries an
attempt index at least `a0`. -/
theorem vpn_try_server_attempt_lb (env : VpnEnv) (server : String)
    (sIdx : Nat) (file : StateFile) :
    ∀ fuel a0 s' a',
      Event.vpnStatusQuery s' a' ∈ (vpn_try_server env server sIdx file fuel a0).1 →
      a0 ≤ a' := by
  intro fuel
  induction fuel with
  | zero => intro a0 s' a' h; simp [vpn_try_server] at h
  | succ n ih =>
      intro a0 s' a' h
      cases hc : vpn_candidate_success (env.connectOutput sIdx a0)
          (env.connectCode sIdx a0) with
      | false =>
          simp only [vpn_try_server, hc, Bool.false_eq_true, if_false,
            List.mem_cons] at h
          rcases h with h | h
          · exact absurd h (by simp)
          · exact Nat.le_of_succ_le (ih (a0 + 1) s' a' h)
      | true =>
          cases hst : strHas (env.statusOutput sIdx a0) "Connected" with
          | false =>
              simp only [vpn_try_server, hc, hst, Bool.false_eq_true, if_true,
                if_false, List.cons_append, List.nil_append, List.mem_cons] at h
              rcases h with h | h | h
              · exact absurd h (by simp)
              · obtain ⟨_, h2⟩ := Event.vpnStatusQuery.inj h
                omega
              · exact Nat.le_of_succ_le (ih (a0 + 1) s' a' h)
          | true =>
              have hnofw : Event.vpnStatusQuery s' a'
                  ∉ (setup_vpn_mode_firewall (env.fwFound FwMode.vpn)
                      (env.fwExit FwMode.vpn)).1 := by
                cases hf : env.fwFound FwMode.vpn <;>
                  simp [setup_vpn_mode_firewall, setup_mode_firewall, hf]
              cases hks : (setup_vpn_mode_firewall (env.fwFound FwMode.vpn)
                  (env.fwExit FwMode.vpn)).2 with
              | false =>
                  simp only [vpn_try_server, hc, hst, hks, Bool.false_eq_true,
                    if_true, if_false, List.cons_append, List.nil_append,
                    List.mem_cons, List.mem_append, List.mem_singleton,
                    List.not_mem_nil, or_false] at h
                  rcases h with h | h | h | h
                  · simp at h
                  · obtain ⟨_, h2⟩ := Event.vpnStatusQuery.inj h
                    omega
                  · simp at h
                  · exact absurd h hnofw
              | true =>
                  simp only [vpn_try_server, hc, hst, hks, Bool.false_eq_true,
                    if_true, if_false, List.cons_append, List.nil_append,
                    List.mem_cons, List.mem_append, List.mem_singleton,
                    List.not_mem_nil, or_false] at h
                  rcases h with h | h | h | h | h
                  · simp at h
                  · obtain ⟨_, h2⟩ := Event.vpnStatusQuery.inj h
                    omega
                  · simp at h
                  · exact absurd h hnofw
                  · simp at h

/-! ## Claim C3: VPN endpoint fallback order -/

/-- C3: the VPN connect operation iterates the fixed ordered endpoint list
and runs each endpoint's full retry budget before moving on: when only the
3rd endpoint (`"uk"`, index 2) can verify, endpoints 1 and 2 are each tried
to exhaustion (`VPN_MAX_RETRIES` connect commands each, in list order)
before the call succeeds on endpoint 3 and persists `"uk"` as
`last_vpn_server`; when no endpoint ever verifies, the call fails with the
exhaustion message. -/
theorem connect_vpn_endpoint_fallback (env : VpnEnv) (file : StateFile) :
    ((∀ a, vpn_verified env 0 a = false) →
      (∀ a, vpn_verified env 1 a = false) →
      vpn_verified env 2 0 = true →
      ∀ r, r = connect_vpn_with_retry env VPN_MAX_RETRIES file →
        r.ok = true ∧ r.file.last_vpn_server = some "uk"
        ∧ ∃ t0 t1 t2, r.trace = t0 ++ t1 ++ t2
            ∧ List.countP isVpnCmd t0 = VPN_MAX_RETRIES
            ∧ (∀ e ∈ t0, eventServer e = some 0)
            ∧ List.countP isVpnCmd t1 = VPN_MAX_RETRIES
            ∧ (∀ e ∈ t1, eventServer e = some 1)
            ∧ List.countP isVpnCmd t2 = 1
            ∧ List.countP (isVpnCmdAtServer 2) t2 = 1)
    ∧ ((∀ s a, vpn_verified env s a = false) →
        ∀ r, r = connect_vpn_with_retry env VPN_MAX_RETRIES file →
          r.ok = false
          ∧ r.msg = "VPN connection failed after trying multiple servers") := by
  constructor
  · intro h0 h1 h2 r hr
    obtain ⟨hn0, hc0, hm0⟩ :=
      vpn_try_server_all_fail env "" 0 file h0 VPN_MAX_RETRIES 0
    obtain ⟨hn1, hc1, hm1⟩ :=
      vpn_try_server_all_fail env "us" 1 file h1 VPN_MAX_RETRIES 0
    have hv := h2
    simp only [vpn_verified, Bool.and_eq_true] at hv
    obtain ⟨t2, he2, hc2a, hc2b⟩ :=
      vpn_try_server_success_step env "uk" 2 file 2 hv.1 hv.2
    have he2' : (vpn_try_server env "uk" 2 file VPN_MAX_RETRIES 0).2
        = some (vpn_success_msg env "uk", vpn_state_dict "uk") := by
      rw [show VPN_MAX_RETRIES = 2 + 1 from rfl, he2]
    have ht2 : (vpn_try_server env "uk" 2 file VPN_MAX_RETRIES 0).1 = t2 := by
      rw [show VPN_MAX_RETRIES = 2 + 1 from rfl, he2]
    have eAll : vpn_try_servers env VPN_MAX_RETRIES file VPN_SERVERS 0
        = ((vpn_try_server env "" 0 file VPN_MAX_RETRIES 0).1
            ++ ((vpn_try_server env "us" 1 file VPN_MAX_RETRIES 0).1 ++ t2),
           some (vpn_success_msg env "uk", vpn_state_dict "uk")) := by
      have e1 := vpn_try_servers_cons_some env VPN_MAX_RETRIES file "uk"
        ["de", "nl", "ch"] 2 _ he2'
      have e2 := vpn_try_servers_cons_none env VPN_MAX_RETRIES file "us"
        ["uk", "de", "nl", "ch"] 1 hn1
      have e3 := vpn_try_servers_cons_none env VPN_MAX_RETRIES file ""
        ["us", "uk", "de", "nl", "ch"] 0 hn0
      show vpn_try_servers env VPN_MAX_RETRIES file
        ["", "us", "uk", "de", "nl", "ch"] 0 = _
      rw [e3, e2, e1]
      simp [ht2]
    subst hr
    simp only [connect_vpn_with_retry, eAll]
    refine ⟨by trivial, by trivial,
      ⟨(vpn_try_server env "" 0 file VPN_MAX_RETRIES 0).1,
       (vpn_try_server env "us" 1 file VPN_MAX_RETRIES 0).1, t2,
       by simp, hc0, hm0, hc1, hm1, hc2a, hc2b⟩⟩
  · intro hall r hr
    subst hr
    have hnone := vpn_try_servers_all_fail env VPN_MAX_RETRIES file hall
      VPN_SERVERS 0
    simp only [connect_vpn_with_retry]
    rw [hnone]
    simp

/-- A VPN oracle where only endpoint index 2 (`"uk"`) ever verifies. -/
def vpnEnvUkOnly : VpnEnv :=
  { connectCode := fun s _ => if s == 2 then 0 else 1
    connectOutput := fun _ _ => ""
    statusOutput := fun s _ => if s == 2 then "Status: Connected" else ""
    fwFound := fun _ => true
    fwExit := fun _ => 0 }

/-- A VPN oracle where no endpoint ever verifies. -/
def vpnEnvNever : VpnEnv :=
  { connectCode := fun _ _ => 1
    connectOutput := fun _ _ => ""
    statusOutput := fun _ _ => ""
    fwFound := fun _ => true
    fwExit := fun _ => 0 }

/-- Witness for C3 at the two concrete stub oracles. -/
theorem connect_vpn_endpoint_fallback_witness :
    (connect_vpn_with_retry vpnEnvUkOnly VPN_MAX_RETRIES emptyFile).ok = true
    ∧ (connect_vpn_with_retry vpnEnvUkOnly VPN_MAX_RETRIES
        emptyFile).file.last_vpn_server = some "uk"
    ∧ (connect_vpn_with_retry vpnEnvNever VPN_MAX_RETRIES emptyFile).ok
        = false :=
  ⟨((connect_vpn_endpoint_fallback vpnEnvUkOnly emptyFile).1
      (fun _ => rfl) (fun _ => rfl) (by decide) _ rfl).1,
   ((connect_vpn_endpoint_fallback vpnEnvUkOnly emptyFile).1
      (fun _ => rfl) (fun _ => rfl) (by decide) _ rfl).2.1,
   ((connect_vpn_endpoint_fallback vpnEnvNever emptyFile).2
      (fun _ _ => rfl) _ rfl).1⟩

/-! ## Claim C5: attempt success requires the independent status query -/

/-- C5: one VPN attempt is reported successful only when the independent
`nordvpn status` query afterwards reports `Connected`: a candidate success
(exit 0 or a recognized already-connected message) with the status
confirming yields the attempt's success result; a candidate success whose
status query does not confirm counts as a failure (the result is that of
the remaining attempts) even though the query was issued; and on a connect
command failure the status query for that attempt is never issued at all,
whatever the status output would have said. -/
theorem vpn_attempt_success_requires_status (env : VpnEnv) (server : String)
    (sIdx fuel a : Nat) (file : StateFile) :
    (vpn_candidate_success (env.connectOutput sIdx a)
        (env.connectCode sIdx a) = true →
      strHas (env.statusOutput sIdx a) "Connected" = true →
      (vpn_try_server env server sIdx file (fuel + 1) a).2
        = some (vpn_success_msg env server,
            save_state (vpn_state_dict server) file))
    ∧ (vpn_candidate_success (env.connectOutput sIdx a)
        (env.connectCode sIdx a) = true →
      strHas (env.statusOutput sIdx a) "Connected" = false →
      (vpn_try_server env server sIdx file (fuel + 1) a).2
          = (vpn_try_server env server sIdx file fuel (a + 1)).2
      ∧ Event.vpnStatusQuery sIdx a
          ∈ (vpn_try_server env server sIdx file (fuel + 1) a).1)
    ∧ (vpn_candidate_success (env.connectOutput sIdx a)
        (env.connectCode sIdx a) = false →
      (vpn_try_server env server sIdx file (fuel + 1) a).2
          = (vpn_try_server env server sIdx file fuel (a + 1)).2
      ∧ Event.vpnStatusQuery sIdx a
          ∉ (vpn_try_server env server sIdx file (fuel + 1) a).1) := by
  refine ⟨?_, ?_, ?_⟩
  · intro hc hst
    cases hks : (setup_vpn_mode_firewall (env.fwFound FwMode.vpn)
        (env.fwExit FwMode.vpn)).2 <;>
      simp [vpn_try_server, hc, hst, hks, vpn_success_msg, save_state]
  · intro hc hst
    exact ⟨by simp [vpn_try_server, hc, hst], by simp [vpn_try_server, hc, hst]⟩
  · intro hc
    refine ⟨by simp [vpn_try_server, hc], ?_⟩
    intro hmem
    simp only [vpn_try_server, hc, Bool.false_eq_true, if_false,
      List.mem_cons] at hmem
    rcases hmem with h | h
    · simp at h
    · have := vpn_try_server_attempt_lb env server sIdx file fuel (a + 1)
        sIdx a h
      omega

/-- A VPN oracle with a command failure at attempt 0, an unverified
candidate success at attempt 1, and a verified success at attempt 2. -/
def vpnEnvMixed : VpnEnv :=
  { connectCode := fun _ a => if a == 0 then 1 else 0
    connectOutput := fun _ _ => ""
    statusOutput := fun _ a => if a == 1 then "" else "Status: Connected"
    fwFound := fun _ => true
    fwExit := fun _ => 0 }

/-- Witness for C5 at the mixed oracle, one instance per case. -/
theorem vpn_attempt_success_requires_status_witness :
    (vpn_try_server vpnEnvMixed "us" 0 emptyFile 1 2).2
        = some (vpn_success_msg vpnEnvMixed "us",
            save_state (vpn_state_dict "us") emptyFile)
    ∧ ((vpn_try_server vpnEnvMixed "us" 0 emptyFile 2 1).2
          = (vpn_try_server vpnEnvMixed "us" 0 emptyFile 1 2).2
        ∧ Event.vpnStatusQuery 0 1
            ∈ (vpn_try_server vpnEnvMixed "us" 0 emptyFile 2 1).1)
    ∧ ((vpn_try_server vpnEnvMixed "us" 0 emptyFile 3 0).2
          = (vpn_try_server vpnEnvMixed "us" 0 emptyFile 2 1).2
        ∧ Event.vpnStatusQuery 0 0
            ∉ (vpn_try_server vpnEnvMixed "us" 0 emptyFile 3 0).1) :=
  ⟨(vpn_attempt_success_requires_status vpnEnvMixed "us" 0 0 2 emptyFile).1
      (by decide) (by decide),
   (vpn_attempt_success_requires_status vpnEnvMixed "us" 0 1 1 emptyFile).2.1
      (by decide) (by decide),
   (vpn_attempt_success_requires_status vpnEnvMixed "us" 0 2 0 emptyFile).2.2
      (by decide)⟩

/-! ## Claim C8: verified tunnel with failed kill switch is a distinct,
degraded success -/

/-- C8: when the first attempt verifies the tunnel but the VPN (kill-switch)
firewall profile application fails, `connect_vpn_with_retry` still returns
success, with the distinct degraded message — different from the
fully-protected success message of every endpoint in the list. -/
theorem vpn_killswitch_failure_degraded_success (env : VpnEnv)
    (file : StateFile) (hver : vpn_verified env 0 0 = true)
    (hfw : (setup_vpn_mode_firewall (env.fwFound FwMode.vpn)
      (env.fwExit FwMode.vpn)).2 = false) :
    ∀ r, r = connect_vpn_with_retry env VPN_MAX_RETRIES file →
      r.ok = true
      ∧ r.msg = "Connected (kill switch failed)"
      ∧ ∀ s ∈ VPN_SERVERS,
          r.msg ≠ "Connected to VPN (" ++ server_display_name s ++ ")" := by
  intro r hr
  have hv := hver
  simp only [vpn_verified, Bool.and_eq_true] at hv
  obtain ⟨t0, he0, _, _⟩ :=
    vpn_try_server_success_step env "" 0 file 2 hv.1 hv.2
  have he0' : (vpn_try_server env "" 0 file VPN_MAX_RETRIES 0).2
      = some (vpn_success_msg env "", vpn_state_dict "") := by
    rw [show VPN_MAX_RETRIES = 2 + 1 from rfl, he0]
  have eAll := vpn_try_servers_cons_some env VPN_MAX_RETRIES file ""
    ["us", "uk", "de", "nl", "ch"] 0 _ he0'
  have hmsg : vpn_success_msg env "" = "Connected (kill switch failed)" := by
    simp [vpn_success_msg, hfw]
  subst hr
  simp only [connect_vpn_with_retry]
  rw [show VPN_SERVERS = ["", "us", "uk", "de", "nl", "ch"] from rfl, eAll]
  refine ⟨rfl, hmsg, ?_⟩
  show ∀ s ∈ VPN_SERVERS, vpn_success_msg env ""
      ≠ "Connected to VPN (" ++ server_display_name s ++ ")"
  simp only [hmsg]
  decide

/-- A VPN oracle that verifies immediately but whose kill-switch firewall
script exits with failure. -/
def vpnEnvKsFail : VpnEnv :=
  { connectCode := fun _ _ => 0
    connectOutput := fun _ _ => ""
    statusOutput := fun _ _ => "Status: Connected"
    fwFound := fun _ => true
    fwExit := fun m => match m with | FwMode.vpn => 1 | _ => 0 }

/-- Witness for C8 at the kill-switch-failure oracle. -/
theorem vpn_killswitch_failure_degraded_success_witness :
    (connect_vpn_with_retry vpnEnvKsFail VPN_MAX_RETRIES emptyFile).ok = true
    ∧ (connect_vpn_with_retry vpnEnvKsFail VPN_MAX_RETRIES emptyFile).msg
        = "Connected (kill switch failed)" :=
  ⟨(vpn_killswitch_failure_degraded_success vpnEnvKsFail emptyFile
      (by decide) (by decide) _ rfl).1,
   (vpn_killswitch_failure_degraded_success vpnEnvKsFail emptyFile
      (by decide) (by decide) _ rfl).2.1⟩

/-! ## Claim C6: `save_state` replaces the whole file -/

/-- Whenever the WiFi retry loop reports success, the state file it leaves
behind is exactly the two-key WiFi dict. -/
theorem connect_wifi_loop_ok_file (env : WifiEnv) (ssid password : String)
    (file : StateFile) :
    ∀ fuel a, (connect_wifi_loop env ssid password file fuel a).ok = true →
      (connect_wifi_loop env ssid password file fuel a).file
        = wifi_state_dict ssid password := by
  intro fuel
  induction fuel with
  | zero => intro a h; simp [connect_wifi_loop] at h
  | succ n ih =>
      intro a h
      cases hc : connect_wifi_nmcli env a with
      | false =>
          simp only [connect_wifi_loop, hc, Bool.false_eq_true, if_false]
            at h ⊢
          exact ih (a + 1) h
      | true =>
          cases hip : env.hasIP a with
          | false =>
              simp only [connect_wifi_loop, hc, hip, Bool.false_eq_true,
                if_true, if_false] at h ⊢
              exact ih (a + 1) h
          | true =>
              simp [connect_wifi_loop, hc, hip, save_state]

/-- C6: `save_state` replaces the entire on-disk JSON object with exactly
the dict passed to it; consequently a verified successful VPN connect
(which persists only `last_vpn_server`) leaves a file with no WiFi keys,
and a verified successful WiFi connect (which persists only the WiFi keys)
leaves a file with no `last_vpn_server`, whatever was persisted before. -/
theorem save_state_replaces_whole_file (venv : VpnEnv) (wenv : WifiEnv)
    (ssid password : String) (dict old fileV fileW : StateFile)
    (maxR : Nat) :
    save_state dict old = dict
    ∧ ((connect_vpn_with_retry venv maxR fileV).ok = true →
        (connect_vpn_with_retry venv maxR fileV).file.last_wifi_ssid = none
        ∧ (connect_vpn_with_retry venv maxR fileV).file.last_wifi_password
            = none)
    ∧ ((connect_wifi_with_retry wenv ssid password maxR fileW).ok = true →
        (connect_wifi_with_retry wenv ssid password maxR
          fileW).file.last_vpn_server = none) := by
  refine ⟨rfl, ?_, ?_⟩
  · intro h
    cases hres : (vpn_try_servers venv maxR fileV VPN_SERVERS 0).2 with
    | none =>
        exfalso
        simp only [connect_vpn_with_retry] at h
        rw [hres] at h
        simp at h
    | some res =>
        obtain ⟨msg, f⟩ := res
        obtain ⟨server, hf⟩ := vpn_try_servers_some_file venv maxR fileV
          VPN_SERVERS 0 msg f hres
        simp only [connect_vpn_with_retry]
        rw [hres]
        simp [hf, vpn_state_dict]
  · intro h
    simp only [connect_wifi_with_retry] at h ⊢
    rw [connect_wifi_loop_ok_file wenv ssid password fileW maxR 0 h]
    rfl

/-- A VPN oracle that always verifies with working firewall scripts. -/
def vpnEnvAllOk : VpnEnv :=
  { connectCode := fun _ _ => 0
    connectOutput := fun _ _ => ""
    statusOutput := fun _ _ => "Status: Connected"
    fwFound := fun _ => true
    fwExit := fun _ => 0 }

/-- A WiFi oracle that always connects and binds an IP. -/
def wifiEnvAllOk : WifiEnv :=
  { connectCode := fun _ => 0
    hasIP := fun _ => true
    fwFound := fun _ => true
    fwExit := fun _ => 0 }

/-- Witness for C6: starting from files holding the other component's keys,
each verified connect erases them. -/
theorem save_state_replaces_whole_file_witness :
    (connect_vpn_with_retry vpnEnvAllOk 3
        (wifi_state_dict "home" "pw")).file.last_wifi_ssid = none
    ∧ (connect_wifi_with_retry wifiEnvAllOk "home" "pw" 3
        (vpn_state_dict "uk")).file.last_vpn_server = none :=
  ⟨((save_state_replaces_whole_file vpnEnvAllOk wifiEnvAllOk "home" "pw"
      emptyFile emptyFile (wifi_state_dict "home" "pw")
      (vpn_state_dict "uk") 3).2.1 (by decide)).1,
   (save_state_replaces_whole_file vpnEnvAllOk wifiEnvAllOk "home" "pw"
      emptyFile emptyFile (wifi_state_dict "home" "pw")
      (vpn_state_dict "uk") 3).2.2 (by decide)⟩

/-! ## Claim C7: health-monitor cycle behavior -/

/-- A probe environment with upstream WiFi connected, internet reachable,
and no VPN. -/
def probeWifiUpNoVpn : ProbeEnv :=
  { devShowOut := "100 (connected)"
    ssidOut := "HotelWifi"
    ipAddrOut := "10.0.0.2"
    vpnStatusOut := ""
    ipifyOut := ""
    ipifyCode := 1
    pingCode := 0 }

/-- A state file whose persisted VPN endpoint is the empty string
(meaning "auto"). -/
def fileAutoVpn : StateFile :=
  { last_wifi_ssid := none, last_wifi_password := none,
    last_vpn_server := some "" }

/-- Counterexample to C7 as stated: with WiFi and internet up, VPN down,
and a persisted `last_vpn_server` equal to the empty string ("auto"), the
health cycle invokes no VPN reconnect at all — the empty string is falsy in
the `state.get('last_vpn_server')` guard, so "including the empty string"
fails. -/
theorem health_cycle_auto_endpoint_counterexample :
    (get_status probeWifiUpNoVpn).wifi_connected = true
    ∧ (get_status probeWifiUpNoVpn).internet = true
    ∧ (get_status probeWifiUpNoVpn).vpn_connected = false
    ∧ fileAutoVpn.last_vpn_server = some ""
    ∧ List.countP isVpnHealthConnect
        (health_cycle probeWifiUpNoVpn fileAutoVpn 0) = 0
    ∧ health_cycle probeWifiUpNoVpn fileAutoVpn 0
        = [HealthAction.mgmt, HealthAction.probe] := by
  decide

/-- C7 (amended): each health cycle first reasserts management access
unconditionally and probes status; if WiFi is not connected and a truthy
(non-empty) persisted SSID exists it invokes the WiFi connector with the
reduced budget 2 < `WIFI_MAX_RETRIES`; if WiFi and internet are up, VPN is
down, and a *non-empty* persisted VPN endpoint exists, it issues a single
unverified `nordvpn connect` (not the budgeted, verified connect); a falsy
(absent or empty/"auto") persisted endpoint triggers no VPN reconnect. -/
theorem health_cycle_behavior (penv : ProbeEnv) (file : StateFile)
    (vpnExit : Nat) :
    ∀ acts, acts = health_cycle penv file vpnExit →
      (∃ rest, acts = [HealthAction.mgmt, HealthAction.probe] ++ rest)
      ∧ ((get_status penv).wifi_connected = false →
          truthy file.last_wifi_ssid = true →
          HealthAction.wifiConnect (file.last_wifi_ssid.getD "")
            (file.last_wifi_password.getD "") 2 ∈ acts)
      ∧ 2 < WIFI_MAX_RETRIES
      ∧ ((get_status penv).wifi_connected = true →
          (get_status penv).internet = true →
          (get_status penv).vpn_connected = false →
          truthy file.last_vpn_server = true →
          HealthAction.vpnSingleConnect (file.last_vpn_server.getD "")
            ∈ acts)
      ∧ (truthy file.last_vpn_server = false →
          List.countP isVpnHealthConnect acts = 0) := by
  intro acts hacts
  subst hacts
  refine ⟨⟨_, rfl⟩, ?_, by decide, ?_, ?_⟩
  · intro hw hs
    simp [health_cycle, hw, hs, reconnect_last_wifi_actions]
  · intro hw hi hv hs
    simp [health_cycle, hw, hi, hv, hs, reconnect_last_vpn_actions]
  · intro hs
    have h1 : List.countP isVpnHealthConnect
        (reconnect_last_wifi_actions file) = 0 := by
      unfold reconnect_last_wifi_actions
      split_ifs <;> simp [isVpnHealthConnect]
    have hg : ((get_status penv).wifi_connected && (get_status penv).internet
        && !(get_status penv).vpn_connected
        && truthy file.last_vpn_server) = false := by
      rw [hs, Bool.and_false]
    simp only [health_cycle, hg, Bool.false_eq_true, if_false,
      List.append_nil, List.countP_append, List.countP_cons, List.countP_nil,
      isVpnHealthConnect]
    split_ifs <;> simp [h1]

/-- A probe environment with no WiFi link at all. -/
def probeDown : ProbeEnv :=
  { devShowOut := "20 (unavailable)"
    ssidOut := ""
    ipAddrOut := ""
    vpnStatusOut := ""
    ipifyOut := ""
    ipifyCode := 1
    pingCode := 1 }

/-- A state file with both WiFi credentials and a named VPN endpoint. -/
def fileSaved : StateFile :=
  { last_wifi_ssid := some "home", last_wifi_password := some "pw",
    last_vpn_server := some "us" }

/-- Witness for C7 (amended) at concrete probe results and state files. -/
theorem health_cycle_behavior_witness :
    HealthAction.wifiConnect "home" "pw" 2
        ∈ health_cycle probeDown fileSaved 0
    ∧ HealthAction.vpnSingleConnect "us"
        ∈ health_cycle probeWifiUpNoVpn fileSaved 0 :=
  ⟨(health_cycle_behavior probeDown fileSaved 0 _ rfl).2.1
      (by decide) (by decide),
   (health_cycle_behavior probeWifiUpNoVpn fileSaved 0 _ rfl).2.2.2.1
      (by decide) (by decide) (by decide) (by decide)⟩

/-! ## Claim C10: no system-wide mutation lock exists -/

/-- Every run of the WiFi retry loop with at least one attempt of fuel
issues the connect command for its starting attempt. -/
theorem connect_wifi_loop_issues_cmd (env : WifiEnv)
    (ssid password : String) (file : StateFile) (fuel a : Nat) :
    Event.wifiConnectCmd ssid password a
      ∈ (connect_wifi_loop env ssid password file (fuel + 1) a).trace := by
  cases hc : connect_wifi_nmcli env a with
  | false => simp [connect_wifi_loop, hc]
  | true =>
      cases hip : env.hasIP a with
      | false => simp [connect_wifi_loop, hc, hip]
      | true => simp [connect_wifi_loop, hc, hip]

/-- C10 evaluation: the request handler for a WiFi connect consults no lock
and has no busy path — for every oracle and state (in particular while any
other mutation is in progress) it unconditionally executes the mutation
(the connect command is issued) and its response is never `busy`.  This
contradicts the claimed mutual exclusion: two concurrent mutation requests
both execute, and neither is answered `busy`. -/
theorem handle_connect_executes_unconditionally (env : WifiEnv)
    (ssid password : String) (file : StateFile) :
    ∀ resp r, (resp, r) = handle_connect env ssid password file →
      Event.wifiConnectCmd ssid password 0 ∈ r.trace
      ∧ resp ≠ MutationResponse.busy := by
  intro resp r h
  have hr : r = connect_wifi_with_retry env ssid password WIFI_MAX_RETRIES
      file := congrArg Prod.snd h
  have hresp : resp = (if (connect_wifi_with_retry env ssid password
        WIFI_MAX_RETRIES file).ok
      then MutationResponse.connected (connect_wifi_with_retry env ssid
        password WIFI_MAX_RETRIES file).msg
      else MutationResponse.failed (connect_wifi_with_retry env ssid
        password WIFI_MAX_RETRIES file).msg) := congrArg Prod.fst h
  constructor
  · rw [hr]
    show Event.wifiConnectCmd ssid password 0
      ∈ (connect_wifi_loop env ssid password file (2 + 1) 0).trace
    exact connect_wifi_loop_issues_cmd env ssid password file 2 0
  · rw [hresp]
    cases (connect_wifi_with_retry env ssid password WIFI_MAX_RETRIES
        file).ok <;> simp

/-- Witness for C10 at a concrete oracle. -/
theorem handle_connect_executes_unconditionally_witness :
    Event.wifiConnectCmd "home" "pw" 0
        ∈ (handle_connect wifiEnvAllOk "home" "pw" emptyFile).2.trace
    ∧ (handle_connect wifiEnvAllOk "home" "pw" emptyFile).1
        ≠ MutationResponse.busy :=
  handle_connect_executes_unconditionally wifiEnvAllOk "home" "pw" emptyFile
    (handle_connect wifiEnvAllOk "home" "pw" emptyFile).1
    (handle_connect wifiEnvAllOk "home" "pw" emptyFile).2 rfl

end VpnAp
